import Mathlib

/-!
Verification of the shared state/event/lifecycle core of the vanilla UI
widget library (`packages/vanilla/src/core/StateManager.ts`,
`packages/vanilla/src/core/EventTarget.ts`,
`packages/vanilla/src/core/Component.ts`, `packages/vanilla/src/switch/Switch.ts`).

The embedding is shallow: class instances become immutable Lean structures,
mutating methods become functions `State → State × List Effect` where the
effect list records the observable side effects (console warnings, `onChange`
callback invocations, `change`-event dispatches) in the order the code
performs them.  JS `===` on the stored values is modelled by decidable
equality on the value type, which is faithful for the primitive values
(booleans, strings, numbers) the widgets store.
-/

namespace Vanilla

/-! ## StateManager (src/unnamed/part_005, `StateManager.ts`) -/

/-- The `StateOptions<T>` bag passed to the `StateManager` constructor.
`onChange` is a callback; the embedding only needs to know whether it is
present (`this.options.onChange?.(newValue)` fires exactly when it is).
The `caller` field only affects warning text and is omitted. -/
structure StateOptions (T : Type) where
  prop : Option T
  defaultProp : Option T
  hasOnChange : Bool
deriving DecidableEq

/-- The mutable fields of a `StateManager<T>` instance: `_value` (here
`value`), and the construction-time `isControlled` flag and options. -/
structure StateManager (T : Type) where
  value : T
  isControlled : Bool
  hasOnChange : Bool
deriving DecidableEq

/-- Observable side effects of a `StateManager` method call, in program
order: a `console.warn` diagnostic, an invocation of the external
`options.onChange` callback, or a dispatch of the `change` `CustomEvent`
(which is what notifies every `subscribe`d listener) carrying
`detail.value` and `detail.oldValue`. -/
inductive Effect (T : Type) where
  | warn : Effect T
  | onChange (v : T) : Effect T
  | change (newValue oldValue : T) : Effect T
deriving DecidableEq

/-- The `StateManager` constructor: `isControlled = options.prop !== undefined`;
the initial `_value` is `options.prop` if present, else `options.defaultProp`
if present, else the `initialValue` argument. -/
def mkStateManager {T : Type} (initialValue : T) (options : StateOptions T) :
    StateManager T :=
  { value :=
      match options.prop with
      | some p => p
      | none =>
        match options.defaultProp with
        | some d => d
        | none => initialValue
    isControlled := options.prop.isSome
    hasOnChange := options.hasOnChange }

/-- `getValue()` / the `value` getter: returns `_value`, no side effects. -/
def StateManager.getValue {T : Type} (sm : StateManager T) : T :=
  sm.value

/-- `setValue(newValue)`: if `_value === newValue`, return with no effects;
otherwise store the new value, invoke `options.onChange` (when present) with
the new value, then dispatch the `change` event with `(newValue, oldValue)`.
Note this method does not consult `isControlled`. -/
def StateManager.setValue {T : Type} [DecidableEq T] (sm : StateManager T)
    (newValue : T) : StateManager T × List (Effect T) :=
  if sm.value = newValue then (sm, [])
  else
    ({ sm with value := newValue },
      (if sm.hasOnChange then [Effect.onChange newValue] else [])
        ++ [Effect.change newValue sm.value])

/-- The `set value(newValue)` accessor: when controlled, emit the
`console.warn` diagnostic and return without mutating or notifying;
otherwise delegate to `setValue`. -/
def StateManager.valueSet {T : Type} [DecidableEq T] (sm : StateManager T)
    (newValue : T) : StateManager T × List (Effect T) :=
  if sm.isControlled then (sm, [Effect.warn])
  else sm.setValue newValue

/-- `updateControlledValue(newValue)`: a no-op on an uncontrolled manager;
on a controlled one it unconditionally stores the new value and dispatches
the `change` event — it performs no equality short-circuit and never calls
`options.onChange`. -/
def StateManager.updateControlledValue {T : Type} (sm : StateManager T)
    (newValue : T) : StateManager T × List (Effect T) :=
  if !sm.isControlled then (sm, [])
  else ({ sm with value := newValue }, [Effect.change newValue sm.value])

/-- `createControllableState(options)`: picks `prop`, else `defaultProp`, as
the initial value, and throws a configuration `Error` when neither is
supplied; otherwise constructs the `StateManager` with the same options. -/
def createControllableState {T : Type} (options : StateOptions T) :
    Except String (StateManager T) :=
  match options.prop with
  | some p => Except.ok (mkStateManager p options)
  | none =>
    match options.defaultProp with
    | some d => Except.ok (mkStateManager d options)
    | none => Except.error "Either prop or defaultProp must be provided"

/-- Number of `change`-event dispatches (subscriber notifications) in an
effect list. -/
def countChange {T : Type} : List (Effect T) → Nat
  | [] => 0
  | Effect.change _ _ :: rest => 1 + countChange rest
  | _ :: rest => countChange rest

/-! ## Claims about the Observable Value Cell -/

/-- C2: a controlled `StateManager` (constructed with an explicit `prop`)
starts controlled at the prop value; on any controlled manager the `value`
setter only emits the warning — it neither mutates the stored value, nor
invokes `onChange`, nor dispatches a notification, nor throws (the setter
is a total function) — while `updateControlledValue x` does change the
value returned by the getter to `x`. -/
theorem C2_controlled_set_is_warn_noop {T : Type} [DecidableEq T]
    (options : StateOptions T) (init p : T) (hp : options.prop = some p)
    (sm : StateManager T) (hc : sm.isControlled = true) (v x : T) :
    (mkStateManager init options).isControlled = true
      ∧ (mkStateManager init options).value = p
      ∧ sm.valueSet v = (sm, [Effect.warn])
      ∧ (sm.valueSet v).1.getValue = sm.getValue
      ∧ (sm.updateControlledValue x).1.getValue = x := by
  refine ⟨?_, ?_, ?_, ?_, ?_⟩
  · simp [mkStateManager, hp]
  · simp [mkStateManager, hp]
  · simp [StateManager.valueSet, hc]
  · simp [StateManager.valueSet, hc]
  · simp [StateManager.updateControlledValue, StateManager.getValue, hc]

/-- Witness for C2 at a concrete controlled cell over `Nat`. -/
theorem C2_witness :
    (Vanilla.mkStateManager 0
        { prop := some 5, defaultProp := none, hasOnChange := true }).value = 5
      ∧ StateManager.valueSet
          { value := 5, isControlled := true, hasOnChange := true } 7
          = ({ value := 5, isControlled := true, hasOnChange := true },
              [Effect.warn])
      ∧ (StateManager.updateControlledValue
          { value := 5, isControlled := true, hasOnChange := true } 9).1.getValue
          = 9 := by
  have h := C2_controlled_set_is_warn_noop
    (T := Nat) { prop := some 5, defaultProp := none, hasOnChange := true }
    0 5 rfl { value := 5, isControlled := true, hasOnChange := true } rfl 7 9
  exact ⟨h.2.1, h.2.2.1, h.2.2.2.2⟩

/-- C3 counterexample: on a controlled cell holding `0`,
`updateControlledValue 0` dispatches a `change` notification whose new and
old values are both `0` — a notification fires although the new value is
identical to the old one, refuting the claimed "if and only if". -/
theorem C3_counterexample :
    (StateManager.updateControlledValue
        (T := Nat) { value := 0, isControlled := true, hasOnChange := true } 0).2
        = [Effect.change 0 0]
      ∧ (StateManager.updateControlledValue
          (T := Nat) { value := 0, isControlled := true, hasOnChange := true } 0).1.getValue
          = StateManager.getValue
              (T := Nat) { value := 0, isControlled := true, hasOnChange := true } := by
  constructor <;> rfl

/-- C3 amended: on the `set` path of an uncontrolled cell, a `change`
notification fires if and only if the new value differs from the old one;
an equal-value `set` produces no effects at all (neither subscribers nor
`onChange`); a second `set` of the same value produces no notification, so
two identical `set`s notify exactly once when the value initially differed.
(The controlled-update path, by contrast, notifies unconditionally — see
the counterexample.) -/
theorem C3_set_notifies_iff_changed {T : Type} [DecidableEq T]
    (sm : StateManager T) (hc : sm.isControlled = false) (v : T) :
    countChange (sm.valueSet v).2 = (if sm.value = v then 0 else 1)
      ∧ ((sm.valueSet v).2 = [] ↔ sm.value = v)
      ∧ countChange ((sm.valueSet v).1.valueSet v).2 = 0
      ∧ (sm.value ≠ v →
          countChange (sm.valueSet v).2
            + countChange ((sm.valueSet v).1.valueSet v).2 = 1) := by
  have hval1 : (sm.valueSet v).1.value = v := by
    by_cases h : sm.value = v <;>
      simp [StateManager.valueSet, StateManager.setValue, hc, h]
  have hctl1 : (sm.valueSet v).1.isControlled = false := by
    by_cases h : sm.value = v <;>
      simp [StateManager.valueSet, StateManager.setValue, hc, h]
  have hsecond : countChange ((sm.valueSet v).1.valueSet v).2 = 0 := by
    set sm1 := (sm.valueSet v).1 with hsm1
    simp [StateManager.valueSet, StateManager.setValue, hctl1, hval1, countChange]
  refine ⟨?_, ?_, hsecond, ?_⟩
  · by_cases h : sm.value = v
    · simp [StateManager.valueSet, StateManager.setValue, hc, h, countChange]
    · simp [StateManager.valueSet, StateManager.setValue, hc, h, countChange]
      cases sm.hasOnChange <;> simp [countChange]
  · by_cases h : sm.value = v
    · simp [StateManager.valueSet, StateManager.setValue, hc, h]
    · simp [StateManager.valueSet, StateManager.setValue, hc, h]
  · intro hne
    rw [hsecond]
    simp [StateManager.valueSet, StateManager.setValue, hc, hne, countChange]
    cases sm.hasOnChange <;> simp [countChange]

/-- Witness for C3 amended at a concrete uncontrolled boolean cell. -/
theorem C3_amended_witness :
    countChange
        (StateManager.valueSet
          { value := false, isControlled := false, hasOnChange := true } true).2
        = 1
      ∧ countChange
          ((StateManager.valueSet
              { value := false, isControlled := false, hasOnChange := true }
              true).1.valueSet true).2 = 0 := by
  have h := C3_set_notifies_iff_changed
    { value := false, isControlled := false, hasOnChange := true } rfl true
  exact ⟨by simpa using h.1, h.2.2.1⟩

/-- C9: `createControllableState` raises the configuration error exactly
when neither `prop` nor `defaultProp` is supplied; on success the cell is
controlled precisely when `prop` is present, and the initial value is the
prop value if present, else the default. -/
theorem C9_construction_precedence {T : Type} (options : StateOptions T) :
    ((∃ e, createControllableState options = Except.error e)
        ↔ (options.prop = none ∧ options.defaultProp = none))
      ∧ (∀ sm, createControllableState options = Except.ok sm →
          sm.isControlled = options.prop.isSome
            ∧ (∀ p, options.prop = some p → sm.value = p)
            ∧ (options.prop = none →
                ∀ d, options.defaultProp = some d → sm.value = d)) := by
  rcases hprop : options.prop with _ | p
  · rcases hdef : options.defaultProp with _ | d
    · constructor
      · simp [createControllableState, hprop, hdef]
      · intro sm hsm
        simp [createControllableState, hprop, hdef] at hsm
    · constructor
      · simp [createControllableState, hprop, hdef]
      · intro sm hsm
        simp only [createControllableState, hprop, hdef, Except.ok.injEq] at hsm
        subst hsm
        refine ⟨by simp [mkStateManager, hprop], ?_, ?_⟩
        · intro p hp; simp at hp
        · intro _ d2 hd2
          cases hd2
          simp [mkStateManager, hprop, hdef]
  · constructor
    · simp [createControllableState, hprop]
    · intro sm hsm
      simp only [createControllableState, hprop, Except.ok.injEq] at hsm
      subst hsm
      refine ⟨by simp [mkStateManager, hprop], ?_, ?_⟩
      · intro q hq
        cases hq
        simp [mkStateManager, hprop]
      · intro h
        simp at h

/-- Witness for C9: the error case with nothing supplied, and the success
case with both supplied (prop wins). -/
theorem C9_witness :
    (∃ e, createControllableState
        (T := Nat) { prop := none, defaultProp := none, hasOnChange := false }
        = Except.error e)
      ∧ (mkStateManager 5
          { prop := some 5, defaultProp := some 3, hasOnChange := false }).value
          = 5 := by
  constructor
  · exact (C9_construction_precedence
      (T := Nat) { prop := none, defaultProp := none, hasOnChange := false }).1.mpr
      ⟨rfl, rfl⟩
  · exact ((C9_construction_precedence
      { prop := some 5, defaultProp := some 3, hasOnChange := false }).2
      (mkStateManager 5 { prop := some 5, defaultProp := some 3, hasOnChange := false })
      rfl).2.1 5 rfl

/-- C10: `updateControlledValue` never invokes the external `onChange`
callback; on a controlled cell it stores the new value and dispatches
exactly one subscriber notification, without echoing through the callback;
on an uncontrolled cell it changes nothing and notifies no one.  Moreover
the controlled `set` path also never invokes `onChange` (it only warns), so
`onChange` can only ever fire on the uncontrolled `set` path. -/
theorem C10_controlled_update_no_callback {T : Type} [DecidableEq T]
    (sm : StateManager T) (v : T) :
    (∀ w, Effect.onChange w ∉ (sm.updateControlledValue v).2)
      ∧ (sm.isControlled = true →
          (sm.updateControlledValue v).1.getValue = v
            ∧ (sm.updateControlledValue v).2 = [Effect.change v sm.value])
      ∧ (sm.isControlled = false → sm.updateControlledValue v = (sm, []))
      ∧ (sm.isControlled = true →
          ∀ w, Effect.onChange w ∉ (sm.valueSet v).2) := by
  refine ⟨?_, ?_, ?_, ?_⟩
  · intro w
    cases hc : sm.isControlled <;>
      simp [StateManager.updateControlledValue, hc]
  · intro hc
    simp [StateManager.updateControlledValue, StateManager.getValue, hc]
  · intro hc
    simp [StateManager.updateControlledValue, hc]
  · intro hc w
    simp [StateManager.valueSet, hc]

/-- Witness for C10 at a concrete controlled and a concrete uncontrolled
cell. -/
theorem C10_witness :
    (StateManager.updateControlledValue
        (T := Nat) { value := 1, isControlled := true, hasOnChange := true } 9).2
        = [Effect.change 9 1]
      ∧ StateManager.updateControlledValue
          (T := Nat) { value := 1, isControlled := false, hasOnChange := true } 9
          = ({ value := 1, isControlled := false, hasOnChange := true }, []) := by
  constructor
  · exact ((C10_controlled_update_no_callback
      { value := 1, isControlled := true, hasOnChange := true } 9).2.1 rfl).2
  · exact (C10_controlled_update_no_callback
      { value := 1, isControlled := false, hasOnChange := true } 9).2.2.1 rfl

/-! ## EventTarget (`packages/vanilla/src/core/EventTarget.ts`)

The `listeners` field is a JS `Map<string, Set<EventListener>>`.  A `Map`
has unique keys, so it is embedded as an association list updated in place;
a `Set` is an insertion-ordered duplicate-free list.  Listener functions are
compared by object identity in JS, embedded here as `ListenerId := Nat`. -/

/-- Identity of a listener function object. -/
abbrev ListenerId := Nat

/-- The `listeners` map: event name ↦ insertion-ordered set of listeners. -/
abbrev ListenerMap := List (String × List ListenerId)

/-- JS `Set.prototype.add`: append unless already present. -/
def setAdd (s : List ListenerId) (l : ListenerId) : List ListenerId :=
  if l ∈ s then s else s ++ [l]

/-- Listeners registered for an event type (`listeners.get(type)`, empty
set when the key is absent). -/
def EventTarget.registered : ListenerMap → String → List ListenerId
  | [], _ => []
  | p :: rest, t => if p.1 = t then p.2 else EventTarget.registered rest t

/-- `addEventListener(type, listener)`: create the set for `type` if needed,
then `Set.add` the listener. -/
def EventTarget.addEventListener : ListenerMap → String → ListenerId → ListenerMap
  | [], t, l => [(t, setAdd [] l)]
  | p :: rest, t, l =>
    if p.1 = t then (p.1, setAdd p.2 l) :: rest
    else p :: EventTarget.addEventListener rest t l

/-- `removeEventListener(type, listener)`: `listeners.get(type)?.delete(listener)`
— deletes from the set when the key exists, otherwise does nothing. -/
def EventTarget.removeEventListener : ListenerMap → String → ListenerId → ListenerMap
  | [], _, _ => []
  | p :: rest, t, l =>
    if p.1 = t then (p.1, p.2.erase l) :: rest
    else p :: EventTarget.removeEventListener rest t l

/-- The event object constructed by `emit`: `new CustomEvent(type, { detail })`. -/
structure CustomEvent (D : Type) where
  type : String
  detail : D
deriving DecidableEq

/-- `emit(type, detail)` / `dispatchEvent`: every listener currently
registered for the type is invoked, in insertion order, with the event.
The result lists the invocations `(listener, event)` that occur. -/
def EventTarget.emit {D : Type} (m : ListenerMap) (t : String) (d : D) :
    List (ListenerId × CustomEvent D) :=
  (EventTarget.registered m t).map (fun l => (l, { type := t, detail := d }))

/-- Outcome of one listener invocation inside `dispatchEvent`: it either
completed normally or threw and the exception was caught (and logged). -/
inductive Outcome (ε : Type) where
  | completed : Outcome ε
  | caught (e : ε) : Outcome ε
deriving DecidableEq

/-- One guarded listener call: the `try { listener.call(this, event) }
catch (error) { console.error(...) }` block of `dispatchEvent`, where
`call l` is the listener body (which may throw). -/
def EventTarget.callListener {ε : Type} (call : ListenerId → Except ε Unit)
    (l : ListenerId) : Except ε (Outcome ε) :=
  Except.tryCatch
    (do
      _ ← call l
      pure Outcome.completed)
    (fun e => pure (Outcome.caught e))

/-- The `listeners.forEach` loop of `dispatchEvent`: calls each listener in
order under the per-listener `try`/`catch`, threading any uncaught
exception through the `Except` layer, and returns the invocation log. -/
def EventTarget.dispatchRun {ε : Type} (call : ListenerId → Except ε Unit) :
    List ListenerId → Except ε (List (ListenerId × Outcome ε))
  | [] => pure []
  | l :: rest => do
    let o ← EventTarget.callListener call l
    let log ← EventTarget.dispatchRun call rest
    pure ((l, o) :: log)

/-- `dispatchEvent(event)` restricted to its listener-invocation behaviour:
run every listener registered for the event type. -/
def EventTarget.dispatchEvent {ε : Type} (call : ListenerId → Except ε Unit)
    (m : ListenerMap) (t : String) : Except ε (List (ListenerId × Outcome ε)) :=
  EventTarget.dispatchRun call (EventTarget.registered m t)

/-- The outcome `dispatchEvent` records for a listener: `caught e` exactly
when its body throws `e`. -/
def EventTarget.outcomeOf {ε : Type} (call : ListenerId → Except ε Unit)
    (l : ListenerId) : Outcome ε :=
  match call l with
  | Except.ok _ => Outcome.completed
  | Except.error e => Outcome.caught e

/-- Each per-event listener set of the map is duplicate-free, as JS `Set`
guarantees. -/
def ListenerMap.WF (m : ListenerMap) : Prop :=
  ∀ p ∈ m, p.2.Nodup

/-! Helper lemmas about the registry. -/

theorem setAdd_mem (s : List ListenerId) (l : ListenerId) : l ∈ setAdd s l := by
  by_cases h : l ∈ s <;> simp [setAdd, h]

theorem setAdd_idem (s : List ListenerId) (l : ListenerId) :
    setAdd (setAdd s l) l = setAdd s l := by
  by_cases h : l ∈ s <;> simp [setAdd, h]

theorem setAdd_nodup {s : List ListenerId} (hs : s.Nodup) (l : ListenerId) :
    (setAdd s l).Nodup := by
  by_cases h : l ∈ s
  · simpa [setAdd, h] using hs
  · simp only [setAdd, h, if_false]
    exact List.Nodup.append hs (List.nodup_singleton l) (by simpa using h)

theorem setAdd_count_self {s : List ListenerId} (hs : s.Nodup) (l : ListenerId) :
    (setAdd s l).count l = 1 := by
  by_cases h : l ∈ s
  · simp only [setAdd, h, if_true]
    exact List.count_eq_one_of_mem hs h
  · simp only [setAdd, h, if_false, List.count_append]
    simp [List.count_eq_zero_of_not_mem h]

theorem registered_add_self (m : ListenerMap) (t : String) (l : ListenerId) :
    EventTarget.registered (EventTarget.addEventListener m t l) t
      = setAdd (EventTarget.registered m t) l := by
  induction m with
  | nil => simp [EventTarget.addEventListener, EventTarget.registered]
  | cons p rest ih =>
    by_cases h : p.1 = t
    · simp [EventTarget.addEventListener, EventTarget.registered, h]
    · simp [EventTarget.addEventListener, EventTarget.registered, h, ih]

theorem registered_remove_self (m : ListenerMap) (t : String) (l : ListenerId) :
    EventTarget.registered (EventTarget.removeEventListener m t l) t
      = (EventTarget.registered m t).erase l := by
  induction m with
  | nil => simp [EventTarget.removeEventListener, EventTarget.registered]
  | cons p rest ih =>
    by_cases h : p.1 = t
    · simp [EventTarget.removeEventListener, EventTarget.registered, h]
    · simp [EventTarget.removeEventListener, EventTarget.registered, h, ih]

theorem registered_nodup {m : ListenerMap} (hm : ListenerMap.WF m) (t : String) :
    (EventTarget.registered m t).Nodup := by
  induction m with
  | nil => simp [EventTarget.registered]
  | cons p rest ih =>
    by_cases h : p.1 = t
    · simpa [EventTarget.registered, h] using hm p (by simp)
    · simp only [EventTarget.registered, h, if_false]
      exact ih (fun q hq => hm q (by simp [hq]))

theorem count_map_pair {α β : Type} [DecidableEq α] [DecidableEq β]
    (ls : List α) (c : β) (a : α) :
    (ls.map (fun x => (x, c))).count (a, c) = ls.count a := by
  induction ls with
  | nil => simp
  | cons x rest ih =>
    by_cases h : x = a
    · simp [List.count_cons, h, ih]
    · have : ¬((x, c) = (a, c)) := by simp [h]
      simp [List.count_cons, h, ih, this]

theorem addEventListener_idem (m : ListenerMap) (t : String) (l : ListenerId) :
    EventTarget.addEventListener (EventTarget.addEventListener m t l) t l
      = EventTarget.addEventListener m t l := by
  induction m with
  | nil => simp [EventTarget.addEventListener, setAdd_idem]
  | cons p rest ih =>
    obtain ⟨p1, p2⟩ := p
    by_cases h : p1 = t
    · simp [EventTarget.addEventListener, h, setAdd_idem]
    · simp [EventTarget.addEventListener, h, ih]

theorem removeEventListener_of_not_mem (m : ListenerMap) (t : String)
    (l : ListenerId) :
    l ∉ EventTarget.registered m t →
      EventTarget.removeEventListener m t l = m := by
  induction m with
  | nil => intro _; simp [EventTarget.removeEventListener]
  | cons p rest ih =>
    obtain ⟨p1, p2⟩ := p
    intro hl
    by_cases h : p1 = t
    · simp [EventTarget.registered, h] at hl
      simp [EventTarget.removeEventListener, h, List.erase_of_not_mem hl]
    · simp [EventTarget.registered, h] at hl
      simp [EventTarget.removeEventListener, h, ih hl]

theorem mem_map_fst_emit {D : Type} (m : ListenerMap) (t : String) (d : D)
    (a : ListenerId) :
    a ∈ (EventTarget.emit m t d).map Prod.fst
      ↔ a ∈ EventTarget.registered m t := by
  simp [EventTarget.emit]

/-! ## Claims about the Event Hub -/

/-- C6: `dispatchEvent` runs with per-listener isolation: for any listener
bodies (any of which may throw), dispatch invokes every registered listener
in order — a thrown exception is caught and recorded, later listeners still
run — and dispatch itself always returns normally (`Except.ok`), so no
listener exception reaches the caller of `emit`. -/
theorem C6_listener_exceptions_isolated {ε : Type}
    (call : ListenerId → Except ε Unit) (m : ListenerMap) (t : String) :
    EventTarget.dispatchEvent call m t
      = Except.ok ((EventTarget.registered m t).map
          (fun l => (l, EventTarget.outcomeOf call l))) := by
  unfold EventTarget.dispatchEvent
  induction EventTarget.registered m t with
  | nil => rfl
  | cons l rest ih =>
    have hcall : EventTarget.callListener call l
        = Except.ok (EventTarget.outcomeOf call l) := by
      cases h : call l <;>
        simp [EventTarget.callListener, EventTarget.outcomeOf, Except.tryCatch,
          h, pure, Except.pure, bind, Except.bind]
    simp [EventTarget.dispatchRun, hcall, ih, pure, Except.pure, bind,
      Except.bind]

/-- C8: with set semantics for registration — registering the same listener
twice stores it once (the second `addEventListener` is a no-op), so a
subsequent `emit` invokes it exactly once with the emitted detail; removing
an unregistered listener leaves the map unchanged; and after removal the
listener is no longer invoked by `emit`. -/
theorem C8_registry_set_semantics {D : Type} [DecidableEq D]
    (m : ListenerMap) (hwf : ListenerMap.WF m) (t : String) (l : ListenerId)
    (d : D) :
    EventTarget.addEventListener (EventTarget.addEventListener m t l) t l
        = EventTarget.addEventListener m t l
      ∧ (l ∉ EventTarget.registered m t →
          EventTarget.removeEventListener m t l = m)
      ∧ (EventTarget.emit (EventTarget.addEventListener m t l) t d).count
          (l, { type := t, detail := d }) = 1
      ∧ l ∉ (EventTarget.emit (EventTarget.removeEventListener m t l) t d).map
          Prod.fst := by
  refine ⟨addEventListener_idem m t l, removeEventListener_of_not_mem m t l,
    ?_, ?_⟩
  · rw [EventTarget.emit, registered_add_self, count_map_pair]
    exact setAdd_count_self (registered_nodup hwf t) l
  · intro hmem
    rw [mem_map_fst_emit, registered_remove_self] at hmem
    exact ((registered_nodup hwf t).mem_erase_iff.mp hmem).1 rfl

/-- Witness for C8 on a concrete map. -/
theorem C8_witness :
    (EventTarget.emit
        (EventTarget.addEventListener [("x", [0])] "x" 1) "x" (42 : Nat)).count
        (1, { type := "x", detail := 42 }) = 1
      ∧ EventTarget.removeEventListener [("x", [0])] "x" 1 = [("x", [0])] := by
  have h := C8_registry_set_semantics [("x", [0])]
    (by intro p hp; simp at hp; simp [hp]) "x" 1 (42 : Nat)
  exact ⟨h.2.2.1, h.2.1 (by decide)⟩

/-! ## Component (`packages/vanilla/src/core/Component.ts`)

The base class tracks listeners in `this.listeners : Map<string,
Set<EventListener>>` — keyed by event name only; the registration target is
not recorded.  The tracked helper also performs the native
`element.addEventListener`; those native registrations live in the browser,
modelled here by the `dom` field (triples target × event × listener, the
native semantics deduplicating exact triples).  `destroy()` iterates the
tracked registry and calls `this.eventTarget.removeEventListener(event,
listener)` — removal on the widget's internal event hub, not on the
elements the listeners were attached to. -/

/-- Identity of a DOM node used as a registration target. -/
abbrev TargetId := Nat

/-- The state of a `Component` instance together with the native DOM
listener table it has populated.  `hasCleanup` models whether the concrete
widget supplies the optional `cleanup` hook
(`typeof this.cleanup === 'function'`). -/
structure Component where
  destroyed : Bool
  listeners : ListenerMap
  eventTarget : ListenerMap
  dom : List (TargetId × String × ListenerId)
  hasCleanup : Bool
deriving DecidableEq

/-- Steps `destroy()` performs, in execution order: setting the destroyed
flag, one `eventTarget.removeEventListener(event, listener)` per tracked
pair, clearing the tracked registry, and running the `cleanup` hook. -/
inductive DAction where
  | setFlag : DAction
  | hubRemove (event : String) (l : ListenerId) : DAction
  | clearRegistry : DAction
  | runCleanup : DAction
deriving DecidableEq

/-- The tracked `(event, listener)` pairs, in the registry's iteration
order (`this.listeners.forEach(... listeners.forEach ...)`). -/
def Component.trackedPairs (m : ListenerMap) : List (String × ListenerId) :=
  m.flatMap (fun p => p.2.map (fun l => (p.1, l)))

/-- The protected tracked-registration helper
`Component.addEventListener(element, event, listener)`: records the
listener under the event name (target not recorded) and performs the native
registration on the target. -/
def Component.addEventListener (c : Component) (target : TargetId)
    (event : String) (l : ListenerId) : Component :=
  { c with
    listeners := EventTarget.addEventListener c.listeners event l
    dom :=
      if (target, event, l) ∈ c.dom then c.dom
      else c.dom ++ [(target, event, l)] }

/-- `destroy()`: a no-op when already destroyed; otherwise sets the
destroyed flag, then for every tracked pair calls
`this.eventTarget.removeEventListener(event, listener)`, clears the
tracked registry, and finally runs the `cleanup` hook when the widget
supplies one.  The native `dom` table is untouched.  The returned action
list is the execution trace. -/
def Component.destroy (c : Component) : Component × List DAction :=
  if c.destroyed then (c, [])
  else
    ({ destroyed := true
       listeners := []
       eventTarget :=
         (Component.trackedPairs c.listeners).foldl
           (fun h q => EventTarget.removeEventListener h q.1 q.2) c.eventTarget
       dom := c.dom
       hasCleanup := c.hasCleanup },
      DAction.setFlag
        :: ((Component.trackedPairs c.listeners).map
              (fun q => DAction.hubRemove q.1 q.2)
            ++ [DAction.clearRegistry]
            ++ if c.hasCleanup then [DAction.runCleanup] else []))

/-- Simulating a native event of the given name on a target invokes exactly
the handlers natively registered on that target for that name, in
registration order. -/
def Component.fires (c : Component) (target : TargetId) (event : String) :
    List ListenerId :=
  (c.dom.filter (fun q => q.1 = target ∧ q.2.1 = event)).map (fun q => q.2.2)

/-- A freshly constructed widget that registered one click handler
(listener `1`) on its root node (target `0`) through the tracked helper,
and supplies a `cleanup` hook. -/
def clickWidget : Component :=
  Component.addEventListener
    { destroyed := false, listeners := [], eventTarget := [], dom := []
      hasCleanup := true }
    0 "click" 1

/-! ## Claims about the Widget Lifecycle Base -/

/-- C1: evaluation of the code at the failing input.  A widget registers a
click handler on a DOM target through the tracked helper and is then
destroyed: `destroy()` clears the tracked registry and issues its removals
against the internal event hub (which never held the handler), so the
native registration survives and a simulated click on the target still
invokes the widget-owned handler — the claimed "zero DOM listeners after
destroy" fails. -/
theorem C1_destroyed_widget_still_handles_click :
    (Component.destroy clickWidget).1.listeners = []
      ∧ (Component.destroy clickWidget).2
          = [DAction.setFlag, DAction.hubRemove "click" 1,
             DAction.clearRegistry, DAction.runCleanup]
      ∧ Component.fires (Component.destroy clickWidget).1 0 "click" = [1] := by
  refine ⟨rfl, rfl, rfl⟩

/-- C5 counterexample: on a concrete live widget the first `destroy()`
trace begins with setting the destroyed flag — before any listener removal
and before the `cleanup` hook — and its removals act on the internal event
hub while the native DOM registration survives, refuting the claimed order
"(1) remove every DOM listener, (2) cleanup, (3) set flag". -/
theorem C5_counterexample :
    (Component.destroy clickWidget).2
        = [DAction.setFlag, DAction.hubRemove "click" 1,
           DAction.clearRegistry, DAction.runCleanup]
      ∧ (Component.destroy clickWidget).1.dom = [(0, "click", 1)] := by
  refine ⟨rfl, rfl⟩

/-- C5 amended: `destroy()` is idempotent — on an already-destroyed widget
it is a no-op, and a second `destroy()` after a first is a no-op — and a
first `destroy()` runs, in this order: (1) set the destroyed flag, (2)
remove every tracked listener from the widget's internal event hub (the
registry records no targets, and the native DOM registrations are left in
place), (3) clear the tracked registry, (4) run the widget's `cleanup`
hook when supplied. -/
theorem C5_destroy_idempotent_order (c : Component)
    (hlive : c.destroyed = false) :
    (∀ c2 : Component, c2.destroyed = true → Component.destroy c2 = (c2, []))
      ∧ Component.destroy (Component.destroy c).1
          = ((Component.destroy c).1, [])
      ∧ (Component.destroy c).1.destroyed = true
      ∧ (Component.destroy c).1.listeners = []
      ∧ (Component.destroy c).1.dom = c.dom
      ∧ (Component.destroy c).2
          = DAction.setFlag
              :: ((Component.trackedPairs c.listeners).map
                    (fun q => DAction.hubRemove q.1 q.2)
                  ++ [DAction.clearRegistry]
                  ++ if c.hasCleanup then [DAction.runCleanup] else []) := by
  have hnoop : ∀ c2 : Component, c2.destroyed = true →
      Component.destroy c2 = (c2, []) := by
    intro c2 h2
    simp [Component.destroy, h2]
  refine ⟨hnoop, ?_, ?_, ?_, ?_, ?_⟩
  · apply hnoop
    simp [Component.destroy, hlive]
  all_goals simp [Component.destroy, hlive]

/-- Witness for C5 amended at the concrete click widget. -/
theorem C5_witness :
    Component.destroy (Component.destroy clickWidget).1
        = ((Component.destroy clickWidget).1, [])
      ∧ (Component.destroy clickWidget).1.destroyed = true := by
  have h := C5_destroy_idempotent_order clickWidget rfl
  exact ⟨h.2.1, h.2.2.1⟩

/-! ## Switch (`packages/vanilla/src/switch/Switch.ts`)

`new Switch(element, options)` first runs `super(element, options)`; the
`Component` constructor's last statement is `this.init()`, which dispatches
to the `Switch` override.  The `Switch` constructor body — the statements
after `super(...)` that assign `this.checkedState =
createControllableState({ prop: options.checked, defaultProp:
options.defaultChecked ?? false, onChange: options.onCheckedChange })` and
`this.elements = { root, thumb: null, bubbleInput: null }` — runs only
after `super()` returns.  JS class semantics therefore run `init()` on an
instance whose `elements` and `checkedState` fields are still `undefined`;
a field that may be unassigned at a given moment is embedded as an
`Option`, and a statement that can throw returns `Except`. -/

/-- The subclass-assigned `Switch` fields as they stand at a given moment
during construction: `none` models a field the constructor body has not
assigned yet (JS `undefined`).  Only the presence of the `elements` record
matters to the flow, so it is `Option Unit`. -/
structure SwitchFields where
  checkedState : Option (StateManager Bool)
  elements : Option Unit
deriving DecidableEq

/-- `findElements()`: its first statement is
`this.elements.thumb = this.querySelector(...) || this.createElement(...)`
— a property assignment whose base is `this.elements`, which throws a
`TypeError` when that field is still `undefined`. -/
def Switch.findElements (f : SwitchFields) : Except String SwitchFields :=
  match f.elements with
  | none => Except.error "TypeError: this.elements is undefined"
  | some _ => Except.ok f

/-- `setupEventListeners()`: begins with
`this.checkedState.subscribe(...)` — a method call whose receiver throws a
`TypeError` when `checkedState` is still `undefined`. -/
def Switch.setupEventListeners (f : SwitchFields) :
    Except String SwitchFields :=
  match f.checkedState with
  | none => Except.error "TypeError: this.checkedState is undefined"
  | some _ => Except.ok f

/-- `updateDisplay()`: begins with `this.checkedState.getValue()` — again a
`TypeError` when `checkedState` is still `undefined`. -/
def Switch.updateDisplay (f : SwitchFields) : Except String SwitchFields :=
  match f.checkedState with
  | none => Except.error "TypeError: this.checkedState is undefined"
  | some _ => Except.ok f

/-- The `Switch.init()` override: `findElements()`, then
`setupAttributes()` (attribute writes on the root and the bubble input —
total, no field dependencies), then `setupEventListeners()`, then
`updateDisplay()`. -/
def Switch.init (f : SwitchFields) : Except String SwitchFields := do
  let f1 ← Switch.findElements f
  let f2 ← Switch.setupEventListeners f1
  Switch.updateDisplay f2

/-- The `Switch` fields the checked-state logic depends on once an
instance exists. -/
structure Switch where
  checkedState : StateManager Bool
  disabled : Bool
deriving DecidableEq

/-- `getChecked()`: `this.checkedState.getValue()`. -/
def Switch.getChecked (sw : Switch) : Bool :=
  sw.checkedState.getValue

/-- `handleClick(event)`: returns immediately when disabled, otherwise
toggles via `checkedState.setValue(!getValue())` — the unguarded `setValue`
method, not the controlled-checked `value` setter.  (The form-control
`stopPropagation` bookkeeping after the state change affects neither the
state nor the callback and is omitted.) -/
def Switch.handleClick (sw : Switch) : Switch × List (Effect Bool) :=
  if sw.disabled then (sw, [])
  else
    let r := sw.checkedState.setValue (!sw.checkedState.getValue)
    ({ sw with checkedState := r.1 }, r.2)

/-- `new Switch(element, options)` in execution order: `super(element,
options)` ends by calling `this.init()` on an instance whose `elements`
and `checkedState` are still unassigned; only if `init()` returned would
the constructor body then build the controllable checked state (with the
`?? false` default applied to `defaultChecked`) and the `elements`
record. -/
def Switch.construct (checked defaultChecked : Option Bool)
    (hasOnCheckedChange disabled : Bool) : Except String Switch := do
  _ ← Switch.init (SwitchFields.mk none none)
  let s ← createControllableState
    { prop := checked
      defaultProp := some (defaultChecked.getD false)
      hasOnChange := hasOnCheckedChange }
  Except.ok (Switch.mk s disabled)

/-! ## Claim about the controlled switch -/

/-- C4: evaluation of the code at the failing input.  Constructing the
scenario's switch (`checked: false` with an `onCheckedChange` callback)
throws a `TypeError` before any click can be simulated: `Component`'s
constructor invokes `this.init()` before the `Switch` constructor body
assigns `this.elements` and `this.checkedState`, so `findElements()`
assigns a property on the still-`undefined` `this.elements`.  No switch
instance is ever produced, no click can be delivered, `getChecked()` can
never be called, and `cb` is never invoked — the claimed scenario is
unreachable in the source as written. -/
theorem C4_construction_throws :
    Switch.construct (some false) none true false
      = Except.error "TypeError: this.elements is undefined" := by
  rfl

/-! ## Re-entrant dispatch model for `once`

`once(type, listener)` registers
`wrappedListener = (event) => { listener(event);
this.removeEventListener(type, wrappedListener) }` — the wrapped listener
first runs the body and only then unregisters itself.  To settle what
happens when the body itself emits, the hub is given a small operational
semantics: listener bodies are programs (`HubBeh`) mapping the listener's
identity and how often it has already run to the hub calls it performs, and
a fuel-indexed interpreter executes a task list.  `dispatchEvent` snapshots
the listener set into pending invocations but re-checks membership before
each one (JS `Set.forEach` skips entries deleted mid-iteration); this
coincides with the source on every run below, where no handler unregisters
a different pending handler. -/

/-- A registered entry: a directly registered listener, or the
self-removing wrapper `once` creates around a listener body. -/
inductive Entry where
  | plain (fid : Nat) : Entry
  | once (fid : Nat) : Entry
deriving DecidableEq

/-- The listener body an entry runs. -/
def Entry.fid : Entry → Nat
  | Entry.plain f => f
  | Entry.once f => f

/-- Event name ↦ insertion-ordered set of entries. -/
abbrev EntryMap := List (String × List Entry)

/-- A hub call a listener body may perform. -/
inductive HubAction where
  | emitA (t : String) : HubAction
deriving DecidableEq

/-- A listener body: given the listener identity and the number of times it
has already been invoked, the hub calls it performs, in order. -/
abbrev HubBeh := Nat → Nat → List HubAction

/-- Entries registered for an event type. -/
def Hub.registered : EntryMap → String → List Entry
  | [], _ => []
  | p :: rest, t => if p.1 = t then p.2 else Hub.registered rest t

/-- `Set.add` on entries. -/
def Hub.setAddE (s : List Entry) (e : Entry) : List Entry :=
  if e ∈ s then s else s ++ [e]

/-- `addEventListener` at the entry level (`once` passes its fresh wrapper
here). -/
def Hub.addEntry : EntryMap → String → Entry → EntryMap
  | [], t, e => [(t, Hub.setAddE [] e)]
  | p :: rest, t, e =>
    if p.1 = t then (p.1, Hub.setAddE p.2 e) :: rest
    else p :: Hub.addEntry rest t e

/-- `removeEventListener` at the entry level. -/
def Hub.removeEntry : EntryMap → String → Entry → EntryMap
  | [], _, _ => []
  | p :: rest, t, e =>
    if p.1 = t then (p.1, p.2.erase e) :: rest
    else p :: Hub.removeEntry rest t e

/-- Interpreter state: the hub's registry and the sequence of listener-body
invocations performed so far. -/
structure HubState where
  reg : EntryMap
  log : List Nat
deriving DecidableEq

/-- Pending work: an `emit`, one pending invocation of a dispatch loop, or
the self-removal the `once` wrapper performs after its body returns. -/
inductive HubTask where
  | emitT (t : String) : HubTask
  | invoke (t : String) (e : Entry) : HubTask
  | removeOnce (t : String) (e : Entry) : HubTask
deriving DecidableEq

/-- Run the hub: `emitT` expands to one pending invocation per currently
registered entry; `invoke` (when the entry is still registered) logs the
body invocation, schedules the body's own hub calls and — for a `once`
wrapper — its self-removal after them; `removeOnce` deletes the wrapper.
`fuel` bounds the recursion depth; every run below returns before fuel
runs out. -/
def Hub.run (beh : HubBeh) : Nat → HubState → List HubTask → HubState
  | 0, st, _ => st
  | _ + 1, st, [] => st
  | fuel + 1, st, task :: rest =>
    match task with
    | HubTask.emitT t =>
      Hub.run beh fuel st
        ((Hub.registered st.reg t).map (fun e => HubTask.invoke t e) ++ rest)
    | HubTask.invoke t e =>
      if e ∈ Hub.registered st.reg t then
        let body := (beh e.fid (st.log.count e.fid)).map
          (fun a => match a with | HubAction.emitA t2 => HubTask.emitT t2)
        match e with
        | Entry.plain _ =>
          Hub.run beh fuel (HubState.mk st.reg (st.log ++ [e.fid]))
            (body ++ rest)
        | Entry.once _ =>
          Hub.run beh fuel (HubState.mk st.reg (st.log ++ [e.fid]))
            (body ++ HubTask.removeOnce t e :: rest)
      else Hub.run beh fuel st rest
    | HubTask.removeOnce t e =>
      Hub.run beh fuel (HubState.mk (Hub.removeEntry st.reg t e) st.log) rest

/-- A listener body that re-emits `"x"` on its first invocation only. -/
def behReentrant : HubBeh :=
  fun fid n => if fid = 1 ∧ n = 0 then [HubAction.emitA "x"] else []

/-! ## Claim about `once` -/

/-- C7 counterexample: after `once("x", fn)` where `fn` re-emits `"x"`
during its first run, a single `emit("x")` invokes `fn` twice: the wrapper
removes itself only after the body returns, so it is still registered when
the re-entrant emit dispatches — refuting "unregistered before its own
invocation's side effects run" and "fires at most once". -/
theorem C7_counterexample :
    (Hub.run behReentrant 9
        (HubState.mk (Hub.addEntry [] "x" (Entry.once 1)) [])
        [HubTask.emitT "x"]).log = [1, 1] := by
  rfl

/-- C7 amended: the `once` wrapper unregisters its listener after (not
before) the listener body returns; consequently, for a listener body that
performs no hub calls of its own, `once(x, fn)` followed by two successive
`emit(x)` calls invokes `fn` exactly once, and afterwards the wrapper is no
longer registered. -/
theorem C7_once_two_emits_invoke_once (beh : HubBeh) (fid : Nat) (x : String)
    (h : ∀ n, beh fid n = []) :
    Hub.run beh 6 (HubState.mk (Hub.addEntry [] x (Entry.once fid)) [])
        [HubTask.emitT x, HubTask.emitT x]
      = HubState.mk [(x, [])] [fid] := by
  simp [Hub.run, Hub.addEntry, Hub.setAddE, Hub.registered, Hub.removeEntry,
    Entry.fid, h]

/-- Witness for C7 amended with a silent listener body. -/
theorem C7_witness :
    Hub.run (fun _ _ => []) 6
        (HubState.mk (Hub.addEntry [] "x" (Entry.once 1)) [])
        [HubTask.emitT "x", HubTask.emitT "x"]
      = HubState.mk [("x", [])] [1] := by
  exact C7_once_two_emits_invoke_once (fun _ _ => []) 1 "x" (fun _ => rfl)

end Vanilla
